import Mathlib

/-!
Shallow embedding of `profile_bluesky/startup/10-devices.py`.

The file declares ophyd device classes.  Each class is a list of
`Component` declarations (a channel suffix plus access-mode options) and a
few small convenience methods.  We embed:

* the attribute tables of every device class (`ClassAttr`, one list per
  class, in source order);
* the convenience methods `open`/`close`/`taxi`/`fly` as the lists of
  channel effects (`Eff`) they perform;
* `isopen`/`isclosed` of `Motor_Shutter` as decidable predicates over the
  motor position, with positions and tolerance as exact rationals;
* the three `set` methods.  Each builds a `DeviceStatus`, defines an inner
  function `run`, starts `threading.Thread(target=run)` and returns the
  status.  Every `run` body contains a `yield from` statement, so CPython
  compiles `run` to a generator function: the thread's call `run()` merely
  allocates a generator object and executes none of the body.  We embed the
  body as a list of statements (`PStmt`), the semantics of driving that
  body (`execStmts`), and the semantics of the thread call (`threadOutcome`),
  which executes the body only when the target is not a generator function;
* `AB_Shutter.__init__`, declared as `def __init__(*args, **kwargs)` with
  no positional parameter, together with the CPython rule for the
  zero-argument `super()` call it makes.

The names `threading`, `sleep` and `mv` are not bound in this startup file;
they come from earlier files of the same IPython profile (the spec calls
this "ad hoc threading to fake asynchronous completion signals", and
`sleep`/`mv` are the bluesky plan stubs, which are themselves generator
functions).  Their presence does not change what is proved here: the facts
below depend only on the branch structure of the bodies and on the
language rules for generator functions, threads and `super()`.
-/

/-- Values written to EPICS channels or stored in plain class attributes. -/
inductive Value
  | int : ℤ → Value
  | str : String → Value
  | num : ℚ → Value
  | pynone : Value
  deriving DecidableEq

/-- Externally visible channel effects a method performs:
a `put` on the channel with the given suffix, or a motor motion command. -/
inductive Eff
  | put : String → Value → Eff
  | move : ℚ → Eff
  deriving DecidableEq

/-- Python exceptions that the embedded code can produce. -/
inductive PyErr
  | valueError : String → PyErr
  | runtimeError : String → PyErr
  | attributeError : String → PyErr
  | nameError : String → PyErr
  deriving DecidableEq

/-- An ophyd `Component(cls, suffix, ...)` declaration: the component class
name, the channel suffix, the optional `write_pv` override, and the
`string=True` / `put_complete=True` options. -/
structure ComponentDecl where
  cls : String
  suffix : String
  write_pv : Option String
  string : Bool
  put_complete : Bool
  deriving DecidableEq

/-- Channel suffix a component reads from (its primary suffix). -/
def ComponentDecl.readSuffix (c : ComponentDecl) : String := c.suffix

/-- Channel suffix a component writes to: the `write_pv` override when
given, otherwise the primary suffix. -/
def ComponentDecl.writeSuffix (c : ComponentDecl) : String :=
  c.write_pv.getD c.suffix

/-- A public class attribute of a device class: either a `Component`
declaration binding a channel, or a plain constant. -/
inductive ClassAttr
  | comp : String → ComponentDecl → ClassAttr
  | const : String → Value → ClassAttr
  deriving DecidableEq

/-- Whether a class attribute is a `Component` (channel-binding) declaration. -/
def ClassAttr.isComp : ClassAttr → Bool
  | .comp _ _ => true
  | .const _ _ => false

/- ## EpicsMotorWithDial (lines 18-27) -/

/-- Component declaration `dial = Component(EpicsSignal, ".DRBV", write_pv=".DVAL")`. -/
def EpicsMotorWithDial.dial : ComponentDecl :=
  ⟨"EpicsSignal", ".DRBV", some ".DVAL", false, false⟩

/-- Public attributes of `EpicsMotorWithDial` added over `EpicsMotor`. -/
def EpicsMotorWithDial.attrs : List ClassAttr :=
  [.comp "dial" EpicsMotorWithDial.dial]

/- ## EpicsMotorWithServo (lines 30-34) -/

/-- Component declaration `servo = Component(EpicsSignal, ".CNEN", string=True)`. -/
def EpicsMotorWithServo.servo : ComponentDecl :=
  ⟨"EpicsSignal", ".CNEN", none, true, false⟩

/-- Public attributes of `EpicsMotorWithServo` added over `EpicsMotor`. -/
def EpicsMotorWithServo.attrs : List ClassAttr :=
  [.comp "servo" EpicsMotorWithServo.servo]

/- ## Mirror1_A (lines 37-46) -/

/-- Public attributes of `Mirror1_A`. -/
def Mirror1_A.attrs : List ClassAttr :=
  [ .comp "angle" ⟨"EpicsSignal", "angl", none, false, false⟩,
    .comp "average" ⟨"EpicsSignal", "avg", none, false, false⟩ ]

/- ## AB_Shutter (lines 49-98) -/

/-- Component declaration `pss_open = Component(EpicsSignal, ":open")`. -/
def AB_Shutter.pss_open : ComponentDecl :=
  ⟨"EpicsSignal", ":open", none, false, false⟩

/-- Component declaration `pss_close = Component(EpicsSignal, ":close")`. -/
def AB_Shutter.pss_close : ComponentDecl :=
  ⟨"EpicsSignal", ":close", none, false, false⟩

/-- Public attributes of `AB_Shutter`. -/
def AB_Shutter.attrs : List ClassAttr :=
  [ .comp "pss_open" AB_Shutter.pss_open,
    .comp "pss_close" AB_Shutter.pss_close ]

/-- Channel effects of `AB_Shutter.open`: `self.pss_open.put(1)` (line 74). -/
def AB_Shutter.open' : List Eff :=
  [.put AB_Shutter.pss_open.writeSuffix (.int 1)]

/-- Channel effects of `AB_Shutter.close`: `self.pss_close.put(1)` (line 78). -/
def AB_Shutter.close' : List Eff :=
  [.put AB_Shutter.pss_close.writeSuffix (.int 1)]

/-- Number of positional parameters of `AB_Shutter.__init__`, declared
`def __init__(*args, **kwargs)` (line 68): the starred parameters
contribute none, so CPython's `co_argcount` is `0`. -/
def AB_Shutter.initArgcount : Nat := 0

/-- CPython semantics of a zero-argument `super()` call: it is filled in
from the implicit `__class__` cell and the first positional parameter of
the enclosing function; when the enclosing function's `co_argcount` is 0
it raises `RuntimeError: super(): no arguments`. -/
def zeroArgSuper (argcount : Nat) : Except PyErr Unit :=
  if argcount = 0 then .error (.runtimeError "super(): no arguments") else .ok ()

/-- Whether the name `self` is bound inside the body of
`AB_Shutter.__init__`.  The method is declared without a `self` parameter,
so the name is unbound there; using it would raise `NameError`. -/
def AB_Shutter.selfBound : Bool := false

/-- State an `AB_Shutter.__init__` call would construct: whether the
`delay` attribute has been assigned (source intends `self.delay = 1.0`). -/
structure AB_ShutterState where
  delay : Option ℚ
  deriving DecidableEq

/-- Body of `AB_Shutter.__init__` (lines 68-70): the call
`super().__init__(*args, **kwargs)` followed by `self.delay = 1.0`. -/
def AB_Shutter.init : Except PyErr AB_ShutterState :=
  (zeroArgSuper AB_Shutter.initArgcount).bind fun _ =>
    if AB_Shutter.selfBound then .ok ⟨some 1⟩ else .error (.nameError "self")

/- ## Motor_Shutter (lines 101-147) -/

/-- Class attribute `open_position = 0.0` (line 114). -/
def Motor_Shutter.open_position : ℚ := 0

/-- Class attribute `closed_position = 1.0` (line 113). -/
def Motor_Shutter.closed_position : ℚ := 1

/-- Class attribute `_tolerance = 0.01` (line 115); leading underscore, so
not a public attribute. -/
def Motor_Shutter.tolerance : ℚ := 1 / 100

/-- Public attributes of `Motor_Shutter`. -/
def Motor_Shutter.attrs : List ClassAttr :=
  [ .comp "motor" ⟨"EpicsMotor", "", none, false, false⟩,
    .const "closed_position" (.num 1),
    .const "open_position" (.num 0) ]

/-- Method `isopen` (lines 117-118): the motor position is within
`_tolerance` of `open_position`. -/
def Motor_Shutter.isopen (p : ℚ) : Bool :=
  decide (|p - Motor_Shutter.open_position| ≤ Motor_Shutter.tolerance)

/-- Method `isclosed` (lines 120-121): the motor position is within
`_tolerance` of `closed_position`. -/
def Motor_Shutter.isclosed (p : ℚ) : Bool :=
  decide (|p - Motor_Shutter.closed_position| ≤ Motor_Shutter.tolerance)

/-- Channel effects of `Motor_Shutter.open`:
`self.motor.move(self.open_position)` (line 125). -/
def Motor_Shutter.open' : List Eff :=
  [.move Motor_Shutter.open_position]

/-- Channel effects of `Motor_Shutter.close`:
`self.motor.move(self.closed_position)` (line 129). -/
def Motor_Shutter.close' : List Eff :=
  [.move Motor_Shutter.closed_position]

/- ## PSO_Device (lines 150-185) -/

/-- Component declaration `pso_taxi = Component(EpicsSignal, "taxi.VAL", put_complete=True)`. -/
def PSO_Device.pso_taxi : ComponentDecl :=
  ⟨"EpicsSignal", "taxi.VAL", none, false, true⟩

/-- Component declaration `pso_fly = Component(EpicsSignal, "fly.VAL", put_complete=True)`. -/
def PSO_Device.pso_fly : ComponentDecl :=
  ⟨"EpicsSignal", "fly.VAL", none, false, true⟩

/-- Public attributes of `PSO_Device`. -/
def PSO_Device.attrs : List ClassAttr :=
  [ .comp "slew_speed" ⟨"EpicsSignal", "slewSpeed.VAL", none, false, false⟩,
    .comp "scan_control" ⟨"EpicsSignal", "scanControl.VAL", none, true, false⟩,
    .comp "start_pos" ⟨"EpicsSignal", "startPos.VAL", none, false, false⟩,
    .comp "end_pos" ⟨"EpicsSignal", "endPos.VAL", none, false, false⟩,
    .comp "scan_delta" ⟨"EpicsSignal", "scanDelta.VAL", none, false, false⟩,
    .comp "pso_taxi" PSO_Device.pso_taxi,
    .comp "pso_fly" PSO_Device.pso_fly ]

/-- Channel effects of `PSO_Device.taxi`: `self.pso_taxi.put("Taxi")` (line 162). -/
def PSO_Device.taxi : List Eff :=
  [.put PSO_Device.pso_taxi.writeSuffix (.str "Taxi")]

/-- Channel effects of `PSO_Device.fly`: `self.pso_fly.put("Fly")` (line 165). -/
def PSO_Device.fly : List Eff :=
  [.put PSO_Device.pso_fly.writeSuffix (.str "Fly")]

/- ## Remaining device classes (attribute tables only) -/

/-- Public attributes of `MyPcoCam` added over `PcoDetectorCam` (lines 188-201). -/
def MyPcoCam.attrs : List ClassAttr :=
  [ .comp "array_callbacks" ⟨"EpicsSignal", "ArrayCallbacks", none, false, false⟩,
    .comp "pco_cancel_dump" ⟨"EpicsSignal", "pco_cancel_dump", none, false, false⟩,
    .comp "pco_live_view" ⟨"EpicsSignal", "pco_live_view", none, false, false⟩,
    .comp "pco_trigger_mode" ⟨"EpicsSignal", "pco_trigger_mode", none, false, false⟩,
    .comp "pco_edge_fastscan" ⟨"EpicsSignal", "pco_edge_fastscan", none, false, false⟩,
    .comp "pco_is_frame_rate_mode" ⟨"EpicsSignal", "pco_is_frame_rate_mode", none, false, false⟩,
    .comp "pco_imgs2dump" ⟨"EpicsSignalWithRBV", "pco_imgs2dump", none, false, false⟩,
    .comp "pco_dump_counter" ⟨"EpicsSignal", "pco_dump_counter", none, false, false⟩,
    .comp "pco_dump_camera_memory" ⟨"EpicsSignal", "pco_dump_camera_memory", none, false, false⟩,
    .comp "pco_max_imgs_seg0" ⟨"EpicsSignalRO", "pco_max_imgs_seg0_RBV", none, false, false⟩,
    .comp "pco_ready2acquire" ⟨"EpicsSignal", "pco_ready2acquire", none, false, false⟩,
    .comp "pco_set_frame_rate" ⟨"EpicsSignal", "pco_set_frame_rate", none, false, false⟩ ]

/-- Public attributes of `MyHDF5Plugin` (lines 204-213): the plain constant
`file_number_sync = None` plus three XML-layout components. -/
def MyHDF5Plugin.attrs : List ClassAttr :=
  [ .const "file_number_sync" .pynone,
    .comp "xml_layout_file" ⟨"EpicsSignalWithRBV", "XMLFileName", none, true, false⟩,
    .comp "xml_layout_valid" ⟨"EpicsSignalRO", "XMLValid_RBV", none, false, false⟩,
    .comp "xml_layout_error_message" ⟨"EpicsSignalRO", "XMLErrorMsg_RBV", none, true, false⟩ ]

/-- Public attributes of `MyPcoDetector` (lines 219-230). -/
def MyPcoDetector.attrs : List ClassAttr :=
  [ .comp "cam" ⟨"MyPcoCam", "cam1:", none, false, false⟩,
    .comp "image" ⟨"ImagePlugin", "image1:", none, false, false⟩,
    .comp "hdf1" ⟨"MyHDF5Plugin", "HDF1:", none, false, false⟩ ]

/-- Public attributes of `SynApps_saveData_Device` (lines 233-246). -/
def SynApps_saveData_Device.attrs : List ClassAttr :=
  [ .comp "scan_number" ⟨"EpicsSignal", "_scanNumber", none, false, false⟩,
    .comp "base_name" ⟨"EpicsSignal", "_baseName", none, false, false⟩ ]

/-- Public attributes of `SynApps_Record_asub` (lines 249-256). -/
def SynApps_Record_asub.attrs : List ClassAttr :=
  [ .comp "proc" ⟨"EpicsSignal", ".PROC", none, false, false⟩,
    .comp "a" ⟨"EpicsSignal", ".A", none, false, false⟩,
    .comp "b" ⟨"EpicsSignal", ".B", none, false, false⟩,
    .comp "vale" ⟨"EpicsSignal", ".VALE", none, false, false⟩ ]

/-- Public attributes of every device class declared in the file, in
source order. -/
def allDeviceAttrs : List ClassAttr :=
  EpicsMotorWithDial.attrs ++ EpicsMotorWithServo.attrs ++ Mirror1_A.attrs ++
  AB_Shutter.attrs ++ Motor_Shutter.attrs ++ PSO_Device.attrs ++
  MyPcoCam.attrs ++ MyHDF5Plugin.attrs ++ MyPcoDetector.attrs ++
  SynApps_saveData_Device.attrs ++ SynApps_Record_asub.attrs

/-- Plain (non-Component) public class attributes appearing in the file:
`Motor_Shutter.closed_position`, `Motor_Shutter.open_position` and
`MyHDF5Plugin.file_number_sync`. -/
def plainConstAttrs : List ClassAttr :=
  [ .const "closed_position" (.num 1),
    .const "open_position" (.num 0),
    .const "file_number_sync" .pynone ]

/- ## The `set` methods and their inner `run` bodies -/

/-- Result of an attribute lookup `self.a` on a device instance: either
the numeric value found, or the name of the missing attribute (the lookup
then raises `AttributeError`). -/
inductive AttrLookup
  | found : ℚ → AttrLookup
  | missing : String → AttrLookup
  deriving DecidableEq

/-- Statements of the inner `run` bodies of the three `set` methods.

`yieldFromSleep arg` is `yield from sleep(self.delay)`: `arg` is the result
of looking up `self.delay`.  `yieldFromMv arg` is
`yield from mv(self.motor, pos)` where `arg` is the looked-up target
position. -/
inductive PStmt
  | callPuts : List Eff → PStmt
  | yieldFromSleep : AttrLookup → PStmt
  | yieldFromMv : AttrLookup → PStmt
  | raiseValueError : String → PStmt
  | finishStatus : PStmt
  deriving DecidableEq

/-- Whether a statement is a `yield from` statement.  CPython compiles a
`def` whose body contains such a statement to a generator function. -/
def PStmt.isYield : PStmt → Bool
  | .yieldFromSleep _ => true
  | .yieldFromMv _ => true
  | _ => false

/-- Whether any branch of a body contains a `yield from` statement, i.e.
whether the `def` is a generator function. -/
def bodyHasYield (branches : List (List PStmt)) : Bool :=
  branches.any fun b => b.any PStmt.isYield

/-- Outcome of driving a `run` body to completion: the channel effects it
performed in order, the exception (if any) that escaped it, and whether it
reached a `status._finished(success=True)` call. -/
structure RunOutcome where
  effects : List Eff
  exc : Option PyErr
  finished : Bool
  deriving DecidableEq

/-- Sequential execution of a `run` body: effects accumulate until a
raised exception stops execution. -/
def execStmts : List PStmt → RunOutcome
  | [] => ⟨[], none, false⟩
  | .callPuts effs :: rest =>
      let o := execStmts rest
      ⟨effs ++ o.effects, o.exc, o.finished⟩
  | .yieldFromSleep (.found _) :: rest => execStmts rest
  | .yieldFromSleep (.missing a) :: _ => ⟨[], some (.attributeError a), false⟩
  | .yieldFromMv (.found t) :: rest =>
      let o := execStmts rest
      ⟨.move t :: o.effects, o.exc, o.finished⟩
  | .yieldFromMv (.missing a) :: _ => ⟨[], some (.attributeError a), false⟩
  | .raiseValueError msg :: _ => ⟨[], some (.valueError msg), false⟩
  | .finishStatus :: rest =>
      let o := execStmts rest
      ⟨o.effects, o.exc, true⟩

/-- Message construction on the invalid branch of `AB_Shutter.set`
(lines 89-91): `msg` is a fixed string; the next statement computes
`msg + " received " + str(value)` but binds its result to nothing, and the
`raise ValueError(msg)` uses `msg`. -/
def AB_Shutter.invalidMsg (value : String) : String :=
  let msg := "value should be either open or close."
  let _discarded := msg ++ " received " ++ value
  msg

/-- Message construction on the invalid branch of `Motor_Shutter.set`
(lines 140-142), identical in form to the `AB_Shutter` one. -/
def Motor_Shutter.invalidMsg (value : String) : String :=
  let msg := "value should be either open or close."
  let _discarded := msg ++ " received " ++ value
  msg

/-- Message construction on the invalid branch of `PSO_Device.set`
(lines 176-178). -/
def PSO_Device.invalidMsg (value : String) : String :=
  let msg := "value should be either Taxi or Fly."
  let _discarded := msg ++ " received " ++ value
  msg

/-- Branch of `AB_Shutter.run` for `value == "open"` (lines 84-85, 92-93):
`self.open()`, `yield from sleep(self.delay)` (the intended `delay` is the
`1.0` that `__init__` tries to assign), `status._finished(success=True)`. -/
def AB_Shutter.branchOpen : List PStmt :=
  [.callPuts AB_Shutter.open', .yieldFromSleep (.found 1), .finishStatus]

/-- Branch of `AB_Shutter.run` for `value == "close"` (lines 86-87, 92-93). -/
def AB_Shutter.branchClose : List PStmt :=
  [.callPuts AB_Shutter.close', .yieldFromSleep (.found 1), .finishStatus]

/-- Else branch of `AB_Shutter.run` (lines 88-91). -/
def AB_Shutter.branchInvalid (value : String) : List PStmt :=
  [.raiseValueError (AB_Shutter.invalidMsg value)]

/-- Body of the inner `run` of `AB_Shutter.set` (lines 83-93), resolved at
a given `value`. -/
def AB_Shutter.runStmts (value : String) : List PStmt :=
  if value = "open" then AB_Shutter.branchOpen
  else if value = "close" then AB_Shutter.branchClose
  else AB_Shutter.branchInvalid value

/-- The `run` of `AB_Shutter.set` is a generator function: its body
contains `yield from sleep(self.delay)` (line 92). -/
def AB_Shutter.runIsGenFn : Bool :=
  bodyHasYield [AB_Shutter.branchOpen, AB_Shutter.branchClose, AB_Shutter.branchInvalid ""]

/-- Branch of `Motor_Shutter.run` for `value == "open"` (lines 135-136,
143): `yield from mv(self.motor, self.open_position)` then
`status._finished(success=True)`. -/
def Motor_Shutter.branchOpen : List PStmt :=
  [.yieldFromMv (.found Motor_Shutter.open_position), .finishStatus]

/-- Branch of `Motor_Shutter.run` for `value == "close"` (lines 137-138,
143): `yield from mv(self.motor, self.close_position)` — the class defines
`closed_position`, not `close_position`, so the attribute lookup raises
`AttributeError`. -/
def Motor_Shutter.branchClose : List PStmt :=
  [.yieldFromMv (.missing "close_position"), .finishStatus]

/-- Else branch of `Motor_Shutter.run` (lines 139-142). -/
def Motor_Shutter.branchInvalid (value : String) : List PStmt :=
  [.raiseValueError (Motor_Shutter.invalidMsg value)]

/-- Body of the inner `run` of `Motor_Shutter.set` (lines 134-143),
resolved at a given `value`. -/
def Motor_Shutter.runStmts (value : String) : List PStmt :=
  if value = "open" then Motor_Shutter.branchOpen
  else if value = "close" then Motor_Shutter.branchClose
  else Motor_Shutter.branchInvalid value

/-- The `run` of `Motor_Shutter.set` is a generator function: its body
contains `yield from mv(...)` statements (lines 136, 138). -/
def Motor_Shutter.runIsGenFn : Bool :=
  bodyHasYield [Motor_Shutter.branchOpen, Motor_Shutter.branchClose, Motor_Shutter.branchInvalid ""]

/-- Branch of `PSO_Device.run` for `value == "Taxi"` (lines 171-172,
179-180): `self.taxi()`, then `yield from sleep(self.delay)` —
`PSO_Device` has no `delay` attribute, so the lookup raises
`AttributeError` — then `status._finished(success=True)`. -/
def PSO_Device.branchTaxi : List PStmt :=
  [.callPuts PSO_Device.taxi, .yieldFromSleep (.missing "delay"), .finishStatus]

/-- Branch of `PSO_Device.run` for `value == "Fly"` (lines 173-174,
179-180). -/
def PSO_Device.branchFly : List PStmt :=
  [.callPuts PSO_Device.fly, .yieldFromSleep (.missing "delay"), .finishStatus]

/-- Else branch of `PSO_Device.run` (lines 175-178). -/
def PSO_Device.branchInvalid (value : String) : List PStmt :=
  [.raiseValueError (PSO_Device.invalidMsg value)]

/-- Body of the inner `run` of `PSO_Device.set` (lines 170-180), resolved
at a given `value`. -/
def PSO_Device.runStmts (value : String) : List PStmt :=
  if value = "Taxi" then PSO_Device.branchTaxi
  else if value = "Fly" then PSO_Device.branchFly
  else PSO_Device.branchInvalid value

/-- The `run` of `PSO_Device.set` is a generator function: its body
contains `yield from sleep(self.delay)` (line 179). -/
def PSO_Device.runIsGenFn : Bool :=
  bodyHasYield [PSO_Device.branchTaxi, PSO_Device.branchFly, PSO_Device.branchInvalid ""]

/-- What `threading.Thread(target=run).start()` makes the new thread do:
it calls `run()` and discards the result.  When `run` is a generator
function, `run()` only allocates a generator object and executes none of
the body; otherwise the call executes the body. -/
def threadOutcome (isGenFn : Bool) (stmts : List PStmt) : RunOutcome :=
  if isGenFn then ⟨[], none, false⟩ else execStmts stmts

/-- Observable result of a call to one of the `set` methods. -/
structure SetResult where
  /-- The method returns a `DeviceStatus` object. -/
  returnsDeviceStatus : Bool
  /-- Whether that status is already finished when `set` returns. -/
  statusFinishedAtReturn : Bool
  /-- Exception raised to the caller of `set` itself.  The body of `set`
  (create status, define `run`, create and start the thread, return) raises
  nothing, and an exception inside a Python thread never propagates to the
  thread that started it. -/
  callerExc : Option PyErr
  /-- Channel effects the spawned thread performs. -/
  threadEffects : List Eff
  /-- Exception escaping inside the spawned thread. -/
  threadExc : Option PyErr
  /-- Whether `status._finished(success=True)` is ever called. -/
  statusEverFinished : Bool
  deriving DecidableEq

/-- Common shape of the three `set` methods (lines 80-98, 131-147,
167-185): build a fresh unfinished `DeviceStatus`, start a thread on the
inner `run`, and return the status immediately. -/
def mkSet (isGenFn : Bool) (stmts : List PStmt) : SetResult :=
  let o := threadOutcome isGenFn stmts
  ⟨true, false, none, o.effects, o.exc, o.finished⟩

/-- Method `AB_Shutter.set` (lines 80-98). -/
def AB_Shutter.set (value : String) : SetResult :=
  mkSet AB_Shutter.runIsGenFn (AB_Shutter.runStmts value)

/-- Method `Motor_Shutter.set` (lines 131-147). -/
def Motor_Shutter.set (value : String) : SetResult :=
  mkSet Motor_Shutter.runIsGenFn (Motor_Shutter.runStmts value)

/-- Method `PSO_Device.set` (lines 167-185). -/
def PSO_Device.set (value : String) : SetResult :=
  mkSet PSO_Device.runIsGenFn (PSO_Device.runStmts value)

/-- Substring containment on strings: some tail of `hay` starts with
`needle`. -/
def containsSub (needle hay : String) : Bool :=
  hay.data.tails.any fun t => needle.data.isPrefixOf t

/- ## Theorems -/

/-- C1: the spec says a `set` call with a value outside the accepted set
raises a `ValueError`.  Evaluating the code at the invalid input `"bogus"`:
no exception reaches the caller of `set`, no exception occurs in the
spawned thread either (the thread target is a generator function, so the
body containing the `raise` never executes), and no channel effect is
performed.  The `raise ValueError` is present in the body: driving the body
would raise it, as the last conjunct shows. -/
theorem set_invalid_raises_nowhere :
    (AB_Shutter.set "bogus").callerExc = none ∧
    (AB_Shutter.set "bogus").threadExc = none ∧
    (AB_Shutter.set "bogus").threadEffects = [] ∧
    (Motor_Shutter.set "bogus").callerExc = none ∧
    (Motor_Shutter.set "bogus").threadExc = none ∧
    (PSO_Device.set "bogus").callerExc = none ∧
    (PSO_Device.set "bogus").threadExc = none ∧
    (execStmts (AB_Shutter.runStmts "bogus")).exc
      = some (PyErr.valueError "value should be either open or close.") := by
  decide

/-- C2: the spec says a `set` call with an accepted value returns an
unfinished `DeviceStatus` and the spawned thread performs the action and
eventually finishes the status.  Evaluating the code at accepted values:
the status is returned unfinished (that much holds), but every `run` is a
generator function, so the thread performs no channel effect and the
status is never finished. -/
theorem set_valid_thread_does_nothing :
    ((AB_Shutter.set "open").returnsDeviceStatus = true ∧
     (AB_Shutter.set "open").statusFinishedAtReturn = false ∧
     (AB_Shutter.set "open").threadEffects = [] ∧
     (AB_Shutter.set "open").statusEverFinished = false) ∧
    ((Motor_Shutter.set "open").returnsDeviceStatus = true ∧
     (Motor_Shutter.set "open").statusFinishedAtReturn = false ∧
     (Motor_Shutter.set "open").threadEffects = [] ∧
     (Motor_Shutter.set "open").statusEverFinished = false) ∧
    ((PSO_Device.set "Taxi").returnsDeviceStatus = true ∧
     (PSO_Device.set "Taxi").statusFinishedAtReturn = false ∧
     (PSO_Device.set "Taxi").threadEffects = [] ∧
     (PSO_Device.set "Taxi").statusEverFinished = false) ∧
    AB_Shutter.runIsGenFn = true ∧
    Motor_Shutter.runIsGenFn = true ∧
    PSO_Device.runIsGenFn = true := by
  decide

/-- C3: `Motor_Shutter.isopen` holds at a motor position `p` exactly when
`|p - 0.0| ≤ 0.01`, `Motor_Shutter.isclosed` exactly when
`|p - 1.0| ≤ 0.01`, and both are false for any `p` strictly between `0.01`
and `0.99`. -/
theorem motor_shutter_isopen_isclosed_spec (p : ℚ) :
    (Motor_Shutter.isopen p = true ↔ |p - 0| ≤ 1 / 100) ∧
    (Motor_Shutter.isclosed p = true ↔ |p - 1| ≤ 1 / 100) ∧
    (1 / 100 < p → p < 99 / 100 →
      Motor_Shutter.isopen p = false ∧ Motor_Shutter.isclosed p = false) := by
  refine ⟨?_, ?_, fun h1 h2 => ⟨?_, ?_⟩⟩
  · simp [Motor_Shutter.isopen, Motor_Shutter.open_position, Motor_Shutter.tolerance]
  · simp [Motor_Shutter.isclosed, Motor_Shutter.closed_position, Motor_Shutter.tolerance]
  · simp only [Motor_Shutter.isopen, Motor_Shutter.open_position, Motor_Shutter.tolerance,
      decide_eq_false_iff_not, not_le]
    rw [sub_zero, abs_of_pos (by linarith)]
    exact h1
  · simp only [Motor_Shutter.isclosed, Motor_Shutter.closed_position, Motor_Shutter.tolerance,
      decide_eq_false_iff_not, not_le]
    rw [abs_of_neg (by linarith)]
    linarith

/-- Witness for C3 at the concrete position `p = 1/2`. -/
theorem motor_shutter_isopen_isclosed_witness :
    Motor_Shutter.isopen (1 / 2) = false ∧ Motor_Shutter.isclosed (1 / 2) = false :=
  (motor_shutter_isopen_isclosed_spec (1 / 2)).2.2 (by norm_num) (by norm_num)

/-- C4: `AB_Shutter.open` writes `1` to the `pss_open` channel
(suffix `":open"`) and nothing else; `AB_Shutter.close` writes `1` to the
`pss_close` channel (suffix `":close"`) and nothing else. -/
theorem ab_shutter_open_close_puts :
    AB_Shutter.open' = [Eff.put ":open" (Value.int 1)] ∧
    AB_Shutter.close' = [Eff.put ":close" (Value.int 1)] :=
  ⟨rfl, rfl⟩

/-- C5: `Motor_Shutter.open` issues exactly one motion command, to
`open_position = 0.0`; `Motor_Shutter.close` issues exactly one motion
command, to `closed_position = 1.0`. -/
theorem motor_shutter_open_close_moves :
    Motor_Shutter.open' = [Eff.move 0] ∧
    Motor_Shutter.close' = [Eff.move 1] ∧
    Motor_Shutter.open_position = 0 ∧
    Motor_Shutter.closed_position = 1 :=
  ⟨rfl, rfl, rfl, rfl⟩

/-- C6: `PSO_Device.taxi` writes the string `"Taxi"` to the channel with
suffix `"taxi.VAL"` and nothing else; `PSO_Device.fly` writes `"Fly"` to
the channel with suffix `"fly.VAL"` and nothing else. -/
theorem pso_taxi_fly_puts :
    PSO_Device.taxi = [Eff.put "taxi.VAL" (Value.str "Taxi")] ∧
    PSO_Device.fly = [Eff.put "fly.VAL" (Value.str "Fly")] :=
  ⟨rfl, rfl⟩

/-- C7 counterexample: not every public attribute of every device class is
a `Component` channel binding — `Motor_Shutter.closed_position` is a plain
constant `1.0`. -/
theorem device_attrs_all_components_counterexample :
    allDeviceAttrs.all ClassAttr.isComp = false ∧
    ClassAttr.const "closed_position" (Value.num 1) ∈ Motor_Shutter.attrs ∧
    (ClassAttr.const "closed_position" (Value.num 1)).isComp = false := by
  refine ⟨by decide, by decide, by decide⟩

/-- C7 amended: every public attribute of each device class is either a
`Component` binding a fixed named channel suffix or one of the three plain
constants (`closed_position`, `open_position`, `file_number_sync`); in
particular `EpicsMotorWithDial.dial` reads from `".DRBV"` and writes to
`".DVAL"`, and `EpicsMotorWithServo.servo` binds `".CNEN"` in string
mode. -/
theorem device_attrs_amended :
    (allDeviceAttrs.all fun a => a.isComp || decide (a ∈ plainConstAttrs)) = true ∧
    EpicsMotorWithDial.dial.readSuffix = ".DRBV" ∧
    EpicsMotorWithDial.dial.writeSuffix = ".DVAL" ∧
    EpicsMotorWithServo.servo.suffix = ".CNEN" ∧
    EpicsMotorWithServo.servo.string = true := by
  refine ⟨by decide, rfl, rfl, rfl, rfl⟩

/-- C8: constructing an `AB_Shutter` always raises — the zero-argument
`super()` call fails because `__init__` is declared without any positional
parameter — so no `AB_Shutter` instance ever has its `delay` attribute set
to `1.0`. -/
theorem ab_shutter_init_always_errors :
    AB_Shutter.init = Except.error (PyErr.runtimeError "super(): no arguments") ∧
    ∀ s : AB_ShutterState, AB_Shutter.init ≠ Except.ok s :=
  ⟨rfl, fun _ h => Except.noConfusion h⟩

/-- C9: a `set` call with an invalid value issues no channel write and
commands no motion: the spawned thread performs no effect, and even
driving the `run` body performs no effect before raising the
`ValueError`. -/
theorem set_invalid_no_effects (a m p : String)
    (ha1 : a ≠ "open") (ha2 : a ≠ "close")
    (hm1 : m ≠ "open") (hm2 : m ≠ "close")
    (hp1 : p ≠ "Taxi") (hp2 : p ≠ "Fly") :
    (AB_Shutter.set a).threadEffects = [] ∧
    (Motor_Shutter.set m).threadEffects = [] ∧
    (PSO_Device.set p).threadEffects = [] ∧
    (execStmts (AB_Shutter.runStmts a)).effects = [] ∧
    (execStmts (Motor_Shutter.runStmts m)).effects = [] ∧
    (execStmts (PSO_Device.runStmts p)).effects = [] ∧
    (execStmts (AB_Shutter.runStmts a)).exc
      = some (PyErr.valueError "value should be either open or close.") ∧
    (execStmts (Motor_Shutter.runStmts m)).exc
      = some (PyErr.valueError "value should be either open or close.") ∧
    (execStmts (PSO_Device.runStmts p)).exc
      = some (PyErr.valueError "value should be either Taxi or Fly.") := by
  refine ⟨rfl, rfl, rfl, ?_, ?_, ?_, ?_, ?_, ?_⟩
  · simp [AB_Shutter.runStmts, ha1, ha2, AB_Shutter.branchInvalid, execStmts]
  · simp [Motor_Shutter.runStmts, hm1, hm2, Motor_Shutter.branchInvalid, execStmts]
  · simp [PSO_Device.runStmts, hp1, hp2, PSO_Device.branchInvalid, execStmts]
  · simp [AB_Shutter.runStmts, ha1, ha2, AB_Shutter.branchInvalid, execStmts,
      AB_Shutter.invalidMsg]
  · simp [Motor_Shutter.runStmts, hm1, hm2, Motor_Shutter.branchInvalid, execStmts,
      Motor_Shutter.invalidMsg]
  · simp [PSO_Device.runStmts, hp1, hp2, PSO_Device.branchInvalid, execStmts,
      PSO_Device.invalidMsg]

/-- Witness for C9 at the concrete invalid value `"bad"`. -/
theorem set_invalid_no_effects_witness :
    (AB_Shutter.set "bad").threadEffects = [] ∧
    (Motor_Shutter.set "bad").threadEffects = [] ∧
    (PSO_Device.set "bad").threadEffects = [] ∧
    (execStmts (AB_Shutter.runStmts "bad")).effects = [] ∧
    (execStmts (Motor_Shutter.runStmts "bad")).effects = [] ∧
    (execStmts (PSO_Device.runStmts "bad")).effects = [] ∧
    (execStmts (AB_Shutter.runStmts "bad")).exc
      = some (PyErr.valueError "value should be either open or close.") ∧
    (execStmts (Motor_Shutter.runStmts "bad")).exc
      = some (PyErr.valueError "value should be either open or close.") ∧
    (execStmts (PSO_Device.runStmts "bad")).exc
      = some (PyErr.valueError "value should be either Taxi or Fly.") :=
  set_invalid_no_effects "bad" "bad" "bad" (by decide) (by decide) (by decide)
    (by decide) (by decide) (by decide)

/-- C10 counterexample: the claim also says the constructed message does
not contain the received value; for the invalid received value `"should"`
the fixed message `"value should be either open or close."` does contain
it as a substring. -/
theorem invalid_msg_contains_value_counterexample :
    "should" ≠ "open" ∧ "should" ≠ "close" ∧
    (execStmts (AB_Shutter.runStmts "should")).exc
      = some (PyErr.valueError (AB_Shutter.invalidMsg "should")) ∧
    AB_Shutter.invalidMsg "should" = "value should be either open or close." ∧
    containsSub "should" (AB_Shutter.invalidMsg "should") = true := by
  refine ⟨by decide, by decide, by decide, rfl, by decide⟩

/-- C10 amended: the `ValueError` message constructed for an invalid `set`
value is exactly the fixed string `"value should be either open or
close."` (respectively `"value should be either Taxi or Fly."` for
`PSO_Device`), independent of the received value: the concatenation of the
received value onto the message is computed but its result is
discarded. -/
theorem invalid_msg_fixed (v : String) :
    AB_Shutter.invalidMsg v = "value should be either open or close." ∧
    Motor_Shutter.invalidMsg v = "value should be either open or close." ∧
    PSO_Device.invalidMsg v = "value should be either Taxi or Fly." :=
  ⟨rfl, rfl, rfl⟩
